import Mathlib

/-!
Verification of the streaming content-moderation relay
(`blocking-responses-poc`): the look-ahead token buffer, the sliding-window
risk-evaluation scheduler, the compliance scoring engine and the SSE event
framing, shallowly embedded from the Python sources
(`backend/app/services/compliance.py`, `backend/app/services/presidio_service.py`,
`backend/app/services/sliding_window.py`, `backend/app/api/v1/endpoints/chat.py`,
`backend/app/utils/sse.py`, and `app.py`).

Scores are modelled as rationals (`ℚ`), token counts as naturals.  External
collaborators (the regex engine behind each compiled pattern, the tiktoken
tokenizer, the Presidio analyzer engine, SHA-256 hashing and JSON
serialization) are injected as function parameters, mirroring the design
document which lists them as pluggable externals; everything else is a direct
translation of the Python control flow.
-/

namespace BlockingResponses

/-- Relevant fields of `Settings` (`backend/app/core/config.py`), with the
default values given there. -/
structure Settings where
  delay_tokens : Nat
  analysis_window_size : Nat
  analysis_overlap : Nat
  analysis_frequency : Nat
  risk_threshold : ℚ
  presidio_confidence_threshold : ℚ

/-- The default settings instance: `delay_tokens = 24`,
`analysis_window_size = 150`, `analysis_overlap = 50`,
`analysis_frequency = 25`, `risk_threshold = 0.7`,
`presidio_confidence_threshold = 0.6`. -/
def settings : Settings :=
  { delay_tokens := 24
    analysis_window_size := 150
    analysis_overlap := 50
    analysis_frequency := 25
    risk_threshold := 0.7
    presidio_confidence_threshold := 0.6 }

/-! ### Python dict operations on association lists

Python dicts are modelled as association lists `List (String × ℚ)`; insertion
order is preserved, keys are unique in all the dict literals we translate. -/

/-- `d.get(k, default)`. -/
def dictGet (d : List (String × ℚ)) (k : String) (dflt : ℚ) : ℚ :=
  match d.find? (fun p => p.1 == k) with
  | some p => p.2
  | none => dflt

/-- `k in d`. -/
def dictContains (d : List (String × ℚ)) (k : String) : Bool :=
  (d.find? (fun p => p.1 == k)).isSome

/-- `d[k] = v`: replace the value of an existing key, else append. -/
def dictSet (d : List (String × ℚ)) (k : String) (v : ℚ) : List (String × ℚ) :=
  if dictContains d k then
    d.map (fun p => if p.1 == k then (p.1, v) else p)
  else d ++ [(k, v)]

/-- `d.update(u)`: every key of `u` is written into `d`. -/
def dictUpdate (d u : List (String × ℚ)) : List (String × ℚ) :=
  u.foldl (fun acc p => dictSet acc p.1 p.2) d

/-! ### Python `str.replace`

`str.replace(old, new)` replaces every non-overlapping occurrence of `old`,
scanning left to right.  The scan is written with a character-count fuel so
that it is structurally recursive (one character of input is consumed per
step, so `s.length` fuel always suffices). -/

/-- One left-to-right replacement pass over a character list. -/
def replaceCharsFuel (pat repl : List Char) : Nat → List Char → List Char
  | _, [] => []
  | 0, l => l
  | fuel + 1, c :: rest =>
    if pat.isPrefixOf (c :: rest) then
      repl ++ replaceCharsFuel pat repl fuel (rest.drop (pat.length - 1))
    else
      c :: replaceCharsFuel pat repl fuel rest

/-- Python `s.replace(pat, repl)` for a non-empty `pat` (the only way the
code calls it); an empty `pat` is returned unchanged. -/
def pyReplace (s pat repl : String) : String :=
  if pat.data.isEmpty then s
  else String.mk (replaceCharsFuel pat.data repl.data s.data.length s.data)

/-! ### Compliance policy (`backend/app/services/compliance.py`) -/

/-- The global `COMPLIANCE_POLICY` dict: base weights, regional overrides and
the policy threshold. -/
structure CompliancePolicy where
  weights : List (String × ℚ)
  regional_weights : List (String × List (String × ℚ))
  threshold : ℚ

/-- `COMPLIANCE_POLICY` of `backend/app/services/compliance.py` (the
`phi_terms`/`pci_terms` lists only feed the two contextual regexes, which are
injected as matchers). -/
def COMPLIANCE_POLICY : CompliancePolicy :=
  { weights :=
      [("email", 0.4), ("phone", 0.5), ("ssn", 1.2), ("dob", 0.6),
       ("address", 0.3), ("credit_card", 1.5), ("iban", 1.0),
       ("routing_number", 0.8), ("bank_account", 1.0), ("medical_record", 1.0),
       ("diagnosis", 0.7), ("medication", 0.6), ("password", 1.5),
       ("api_key", 1.8), ("secret", 1.5), ("phi_hint", 0.2), ("pci_hint", 0.2)]
    regional_weights :=
      [("HIPAA", [("medical_record", 1.5), ("diagnosis", 1.0),
                  ("medication", 0.8), ("phi_hint", 0.4)]),
       ("PCI", [("credit_card", 2.0), ("bank_account", 1.5),
                ("routing_number", 1.2), ("pci_hint", 0.3)]),
       ("GDPR", [("email", 0.6), ("phone", 0.6), ("address", 0.5)]),
       ("CCPA", [("email", 0.5), ("phone", 0.6), ("address", 0.4)])]
    threshold := 0.7 }

/-- Result object `ComplianceResult` (`backend/app/schemas/requests.py`);
the wall-clock `timestamp` field is outside the model. -/
structure ComplianceResult where
  score : ℚ
  blocked : Bool
  triggered_rules : List String
  snippet_hash : Option String
  compliance_region : Option String
  deriving Repr, DecidableEq

/-- `RegulatedPatternDetector`: the ordered dict `self.patterns` is the list
of `(name, compiled-regex)` entries; each compiled regex is injected as its
`search` truth function, and the `credit_card_candidate` regex additionally
as its `finditer` match list. -/
structure RegulatedPatternDetector where
  patterns : List (String × (String → Bool))
  finditerCC : String → List String

/-- `luhn_check(card_number)`: digits are extracted
(`re.sub(r"[^\d]", "", ...)`), a 13..19 length gate is applied, then the
alternating doubled checksum is taken from the right. -/
def luhnDigits (card_number : String) : List Nat :=
  (card_number.data.filter Char.isDigit).map (fun c => c.toNat - 48)

/-- The loop `for d in reversed(digits)` of `luhn_check`, with its
`is_even` toggle; the argument list is the reversed digit list. -/
def luhnSum : List Nat → Bool → Nat
  | [], _ => 0
  | d :: rest, isEven =>
    (if isEven then (if d * 2 > 9 then d * 2 - 9 else d * 2) else d) +
      luhnSum rest (!isEven)

/-- `RegulatedPatternDetector.luhn_check`. -/
def luhn_check (card_number : String) : Bool :=
  let digits := luhnDigits card_number
  if digits.length < 13 || digits.length > 19 then false
  else luhnSum digits.reverse false % 10 == 0

/-- The weight key of a pattern name:
`pattern_name.replace("_candidate", "").replace("_context", "_hint")`. -/
def weightKey (pattern_name : String) : String :=
  pyReplace (pyReplace pattern_name "_candidate" "") "_context" "_hint"

/-- The `credit_card_candidate` branch of the pattern loop: iterate the
candidate matches and add the credit-card weight for the first Luhn-valid one
(`break` after the first hit), contributing `w` once or not at all. -/
def ccScore (candidates : List String) (w : ℚ) : ℚ :=
  match candidates.find? (fun m => luhn_check m) with
  | some _ => w
  | none => 0

/-- One step of the `for pattern_name, pattern in self.patterns.items()`
loop of `assess_compliance_risk`, folding `(score, triggered_rules)`. -/
def assessStep (det : RegulatedPatternDetector) (weights : List (String × ℚ))
    (text : String) (acc : ℚ × List String) (p : String × (String → Bool)) :
    ℚ × List String :=
  if p.1 == "credit_card_candidate" then
    match (det.finditerCC text).find? (fun m => luhn_check m) with
    | some _ =>
      (acc.1 + dictGet weights "credit_card" 1.5,
       acc.2 ++ ["credit_card: Valid credit card number detected"])
    | none => acc
  else if p.2 text then
    (acc.1 + dictGet weights (weightKey p.1) 0.5,
     acc.2 ++ [p.1 ++ ": Pattern detected"])
  else acc

/-- The effective weight dict of `assess_compliance_risk`:
`weights = COMPLIANCE_POLICY["weights"].copy()`, then
`weights.update(COMPLIANCE_POLICY["regional_weights"][region])` when `region`
is truthy and present. -/
def effectiveWeights (policy : CompliancePolicy) (region : Option String) :
    List (String × ℚ) :=
  match region with
  | none => policy.weights
  | some r =>
    if r ≠ "" then
      match policy.regional_weights.find? (fun p => p.1 == r) with
      | some p => dictUpdate policy.weights p.2
      | none => policy.weights
    else policy.weights

/-- `RegulatedPatternDetector.assess_compliance_risk(text, region)`.
`risk_threshold` stands for `settings.risk_threshold` and `hashFn` for
`hashlib.sha256(...).hexdigest()[:16]`, both injected. -/
def assess_compliance_risk (det : RegulatedPatternDetector)
    (policy : CompliancePolicy) (risk_threshold : ℚ)
    (hashFn : String → String) (text : String) (region : Option String) :
    ComplianceResult :=
  let weights := effectiveWeights policy region
  let sr := det.patterns.foldl (assessStep det weights text) (0, [])
  { score := sr.1
    blocked := decide (risk_threshold ≤ sr.1)
    triggered_rules := sr.2
    snippet_hash := if 0 < sr.1 then some (hashFn text) else none
    compliance_region := region }

/-! ### Presidio integration (`backend/app/services/presidio_service.py`) -/

/-- A `RecognizerResult` returned by the Presidio analyzer engine:
entity type, character span, confidence score.  (`end` is a Lean keyword,
so the field is `stop`.) -/
structure RecognizerResult where
  entity_type : String
  start : Nat
  stop : Nat
  score : ℚ
  deriving Repr, DecidableEq

/-- An entity dict appended by `PresidioDetector.analyze_text`. -/
structure PresidioEntity where
  entity_type : String
  start : Nat
  stop : Nat
  score : ℚ
  text : String
  deriving Repr, DecidableEq

/-- `PresidioDetector`: the wrapped `AnalyzerEngine` is external; it is
modelled as an optional function (`self.analyzer` may be `None`) producing
either the recognizer results or an exception (`Except.error`). -/
structure PresidioDetector where
  analyzer : Option (String → Except String (List RecognizerResult))

/-- The `entity_weights` dict literal inside `analyze_text`. -/
def entity_weights : List (String × ℚ) :=
  [("PERSON", 0.5), ("EMAIL_ADDRESS", 0.4), ("PHONE_NUMBER", 0.5),
   ("US_SSN", 1.2), ("CREDIT_CARD", 1.5), ("US_BANK_NUMBER", 1.0),
   ("MEDICAL_RECORD_NUMBER", 1.0), ("ENHANCED_CREDIT_CARD", 1.5),
   ("DATE_TIME", 0.2), ("LOCATION", 0.3), ("URL", 0.2),
   ("US_DRIVER_LICENSE", 0.8), ("US_PASSPORT", 0.9)]

/-- Python slicing `text[start:end]` used for the entity `"text"` field. -/
def pySlice (text : String) (start stop : Nat) : String :=
  String.mk ((text.data.drop start).take (stop - start))

/-- The entity dict appended for one recognizer result. -/
def mkPresidioEntity (text : String) (r : RecognizerResult) : PresidioEntity :=
  { entity_type := r.entity_type, start := r.start, stop := r.stop,
    score := r.score, text := pySlice text r.start r.stop }

/-- One step of the `for result in results` loop of `analyze_text`: results
at or above the confidence threshold contribute
`entity_weights.get(type, 0.3) * result.score` and are appended; the rest
are skipped. -/
def analyzeStep (confidence_threshold : ℚ) (text : String)
    (acc : ℚ × List PresidioEntity) (r : RecognizerResult) :
    ℚ × List PresidioEntity :=
  if confidence_threshold ≤ r.score then
    (acc.1 + dictGet entity_weights r.entity_type 0.3 * r.score,
     acc.2 ++ [mkPresidioEntity text r])
  else acc

/-- `PresidioDetector.analyze_text(text)`: `(0.0, [])` when no analyzer is
configured; the analyzer call is wrapped in `try/except` and an exception
also yields `(0.0, [])`; otherwise the results are folded as above.
`confidence_threshold` stands for `settings.presidio_confidence_threshold`. -/
def analyze_text (det : PresidioDetector) (confidence_threshold : ℚ)
    (text : String) : ℚ × List PresidioEntity :=
  match det.analyzer with
  | none => (0, [])
  | some engine =>
    match engine text with
    | Except.error _ => (0, [])
    | Except.ok results =>
      results.foldl (analyzeStep confidence_threshold text) (0, [])

/-! ### Sliding window analyzer (`backend/app/services/sliding_window.py`) -/

/-- The mutable state of `SlidingWindowAnalyzer`.  The first three fields are
copied from `settings` by `__init__`. -/
structure AnalyzerState where
  window_size : Nat
  overlap_size : Nat
  frequency : Nat
  last_analysis_position : Nat
  total_tokens_processed : Nat
  cumulative_risk : ℚ
  analysis_history : List Nat

/-- `SlidingWindowAnalyzer.__init__` (the history is tracked as the list of
analysis positions of the archived results). -/
def AnalyzerState.init : AnalyzerState :=
  { window_size := settings.analysis_window_size
    overlap_size := settings.analysis_overlap
    frequency := settings.analysis_frequency
    last_analysis_position := 0
    total_tokens_processed := 0
    cumulative_risk := 0
    analysis_history := [] }

/-- `SlidingWindowAnalyzer.should_analyze(current_position)`:
`current_position - last_analysis_position >= frequency` (naturals: the
positions only ever grow, so truncated subtraction agrees with Python). -/
def should_analyze (st : AnalyzerState) (current_position : Nat) : Bool :=
  st.frequency ≤ current_position - st.last_analysis_position

/-- `SlidingWindowAnalyzer.extract_analysis_window(full_text,
current_position)` (tiktoken branch): `enc`/`dec` are the injected
`cl100k_base` encoder and decoder.  Returns
`(window_text, window_start, window_end)`. -/
def extract_analysis_window (enc : String → List Nat)
    (dec : List Nat → String) (window_size overlap_size : Nat)
    (full_text : String) (current_position : Nat) : String × Nat × Nat :=
  let tokens := enc full_text
  let total_tokens := tokens.length
  let window_start := current_position + overlap_size - window_size
  let window_end := min total_tokens (current_position + overlap_size)
  let window_tokens := (tokens.drop window_start).take (window_end - window_start)
  (dec window_tokens, window_start, window_end)

/-- The analysis-result dict built by `analyze_window` (wall-clock
`timestamp` outside the model). -/
structure AnalysisResult where
  window_text : String
  window_start : Nat
  window_end : Nat
  window_size : Nat
  pattern_score : ℚ
  presidio_score : ℚ
  total_score : ℚ
  triggered_rules : List String
  presidio_entities : List PresidioEntity
  blocked : Bool
  analysis_position : Nat

/-- `SlidingWindowAnalyzer.analyze_window`: optional pattern and Presidio
detectors score the window text, the scores are added, the verdict compares
the total against `settings.risk_threshold` (passed as `risk_threshold`),
and the state is updated (`last_analysis_position := total_tokens_processed`,
`cumulative_risk := max`, history appended and clipped to the last 10). -/
def analyze_window (policy : CompliancePolicy)
    (risk_threshold confidence_threshold : ℚ) (hashFn : String → String)
    (pattern_detector : Option RegulatedPatternDetector)
    (presidio_detector : Option PresidioDetector)
    (window_text : String) (window_start window_end : Nat)
    (region : Option String) (st : AnalyzerState) :
    AnalysisResult × AnalyzerState :=
  let ps :=
    match pattern_detector with
    | some det =>
      let cr := assess_compliance_risk det policy risk_threshold hashFn
        window_text region
      (cr.score, cr.triggered_rules)
    | none => ((0 : ℚ), ([] : List String))
  let pr :=
    match presidio_detector with
    | some det => analyze_text det confidence_threshold window_text
    | none => ((0 : ℚ), ([] : List PresidioEntity))
  let total_score := ps.1 + pr.1
  let result : AnalysisResult :=
    { window_text := window_text
      window_start := window_start
      window_end := window_end
      window_size := window_end - window_start
      pattern_score := ps.1
      presidio_score := pr.1
      total_score := total_score
      triggered_rules := ps.2
      presidio_entities := pr.2
      blocked := decide (risk_threshold ≤ total_score)
      analysis_position := st.total_tokens_processed }
  let history := st.analysis_history ++ [st.total_tokens_processed]
  let st' :=
    { st with
      last_analysis_position := st.total_tokens_processed
      cumulative_risk := max st.cumulative_risk total_score
      analysis_history :=
        if history.length > 10 then history.drop (history.length - 10)
        else history }
  (result, st')

/-- `SlidingWindowAnalyzer.process_new_tokens(new_text, full_text, ...)`:
the token count of `new_text` (injected tokenizer `tc`) is added to
`total_tokens_processed`; when `should_analyze` fires, a window is extracted
at the new total position and analyzed, else `none` is returned. -/
def process_new_tokens (tc : String → Nat) (enc : String → List Nat)
    (dec : List Nat → String) (policy : CompliancePolicy)
    (risk_threshold confidence_threshold : ℚ) (hashFn : String → String)
    (pattern_detector : Option RegulatedPatternDetector)
    (presidio_detector : Option PresidioDetector)
    (new_text full_text : String) (region : Option String)
    (st : AnalyzerState) : Option AnalysisResult × AnalyzerState :=
  let st := { st with
    total_tokens_processed := st.total_tokens_processed + tc new_text }
  if ¬ should_analyze st st.total_tokens_processed then (none, st)
  else
    let w := extract_analysis_window enc dec st.window_size st.overlap_size
      full_text st.total_tokens_processed
    let ra := analyze_window policy risk_threshold confidence_threshold hashFn
      pattern_detector presidio_detector w.1 w.2.1 w.2.2 region st
    (some ra.1, ra.2)

/-- Feeding a sequence of `(new_text, full_text)` pairs through
`process_new_tokens`, collecting the analysis results that were returned. -/
def feedTokens (tc : String → Nat) (enc : String → List Nat)
    (dec : List Nat → String) (policy : CompliancePolicy)
    (risk_threshold confidence_threshold : ℚ) (hashFn : String → String)
    (pattern_detector : Option RegulatedPatternDetector)
    (presidio_detector : Option PresidioDetector) (region : Option String) :
    List (String × String) → AnalyzerState → AnalyzerState × List AnalysisResult
  | [], st => (st, [])
  | (n, f) :: rest, st =>
    match process_new_tokens tc enc dec policy risk_threshold
        confidence_threshold hashFn pattern_detector presidio_detector n f
        region st with
    | (r1, st1) =>
      match feedTokens tc enc dec policy risk_threshold
          confidence_threshold hashFn pattern_detector presidio_detector
          region rest st1 with
      | (stF, rs) =>
        (stF, (match r1 with | some a => [a] | none => []) ++ rs)

/-! ### Look-ahead flushing (`chat.py` `flush_tokens` and `app.py`
`flush_tokens`)

`tc` is the injected `token_count` function.  The fallback tokenizer of
`backend/app/utils/tokens.py` (`max(1, len(text) // 4)`) is also provided as
a concrete instance. -/

/-- The `token_count` fallback of `backend/app/utils/tokens.py` when
tiktoken is unavailable: `max(1, len(text) // 4)`. -/
def fallback_token_count (text : String) : Nat :=
  max 1 (text.length / 4)

/-- The piece-counting loop of `flush_tokens`
(`for i, piece in enumerate(token_buffer)` with a running
`accumulated_tokens` and a `break`): the number of leading pieces whose
cumulative token count stays within `budget`. -/
def piecesToEmit (tc : String → Nat) : List String → Nat → Nat
  | [], _ => 0
  | p :: rest, budget =>
    if tc p ≤ budget then piecesToEmit tc rest (budget - tc p) + 1 else 0

/-- The number of pieces `flush_tokens` releases: everything under `force`,
else the longest releasable prefix once the look-ahead budget
`delay_tokens` is held back (`target_tokens = max(0, total - delay_tokens)`,
and nothing is released when the target is zero). -/
def flushCount (tc : String → Nat) (delay_tokens : Nat) (force : Bool)
    (buffer : List String) : Nat :=
  if force then buffer.length
  else
    let total_tokens := (buffer.map tc).sum
    let target_tokens := total_tokens - delay_tokens
    if 0 < target_tokens then piecesToEmit tc buffer target_tokens else 0

/-- Outcome of one `flush_tokens` call: the chunk pieces emitted in order,
the texts handed to the risk evaluators during the call (in call order),
the new vetoed flag and the remaining buffer. -/
structure FlushOut where
  emitted : List String
  evals : List String
  vetoed : Bool
  buffer : List String
  deriving Repr, DecidableEq

/-- `flush_tokens` of the backend chat endpoint
(`backend/app/api/v1/endpoints/chat.py`): counts the releasable prefix and
pops and emits it (everything under `force`).  The body contains no call to
any risk assessor, so the evaluation trace is empty. -/
def chatFlushTokens (tc : String → Nat) (delay_tokens : Nat) (force : Bool)
    (buffer : List String) : FlushOut :=
  if buffer.isEmpty then
    { emitted := [], evals := [], vetoed := false, buffer := buffer }
  else
    let n := flushCount tc delay_tokens force buffer
    { emitted := buffer.take n, evals := [], vetoed := false,
      buffer := buffer.drop n }

/-- `flush_tokens` of `app.py`: after counting the releasable prefix, the
*entire* buffer text is scored first (`score` is the injected combined
pattern+Presidio evaluation, deterministic per the design document); at or
above `risk_threshold` the call vetoes, emits only the `blocked` notice and
returns with the buffer intact.  Otherwise the prefix is popped, its
combined text is scored again, a failing recheck vetoes with the popped
pieces discarded, and only a passing recheck emits the pieces in FIFO
order. -/
def appFlushTokens (tc : String → Nat) (score : String → ℚ)
    (risk_threshold : ℚ) (delay_tokens : Nat) (force : Bool) (vetoed : Bool)
    (buffer : List String) : FlushOut :=
  if vetoed then
    { emitted := [], evals := [], vetoed := vetoed, buffer := buffer }
  else if buffer.isEmpty then
    { emitted := [], evals := [], vetoed := vetoed, buffer := buffer }
  else
    let n := flushCount tc delay_tokens force buffer
    let full_buffer_text := String.join buffer
    if full_buffer_text ≠ "" ∧ risk_threshold ≤ score full_buffer_text then
      { emitted := [], evals := [full_buffer_text], vetoed := true,
        buffer := buffer }
    else
      let bufferEvals := if full_buffer_text ≠ "" then [full_buffer_text] else []
      let pieces_to_analyze := buffer.take n
      let rest := buffer.drop n
      if ¬ pieces_to_analyze.isEmpty then
        let combined_text := String.join pieces_to_analyze
        if risk_threshold ≤ score combined_text then
          { emitted := [], evals := bufferEvals ++ [combined_text],
            vetoed := true, buffer := rest }
        else
          { emitted := pieces_to_analyze,
            evals := bufferEvals ++ [combined_text], vetoed := vetoed,
            buffer := rest }
      else
        { emitted := [], evals := bufferEvals, vetoed := vetoed,
          buffer := rest }

/-! ### SSE framing and event ids (`backend/app/utils/sse.py`, `app.py`) -/

/-- Python `str.splitlines()` restricted to `"\n"` boundaries (the data
strings framed here contain no other line terminators): a trailing
terminator produces no final empty line and the empty string yields no
lines. -/
def pySplitlinesAux : List Char → List Char → List String
  | [], cur => if cur.isEmpty then [] else [String.mk cur.reverse]
  | c :: rest, cur =>
    if c == '\n' then String.mk cur.reverse :: pySplitlinesAux rest []
    else pySplitlinesAux rest (c :: cur)

/-- `data.splitlines()`. -/
def pySplitlines (s : String) : List String :=
  pySplitlinesAux s.data []

/-- The `parts` list built by `sse_event(data, event, id)`: the optional
`event:` line, the optional `id:` line, one `data:` line per line of `data`,
then the terminating empty part. -/
def sseParts (data : String) (event : Option String) (id : Option String) :
    List String :=
  (match event with | some e => ["event: " ++ e] | none => []) ++
  (match id with | some i => ["id: " ++ i] | none => []) ++
  (pySplitlines data).map (fun line => "data: " ++ line) ++
  [""]

/-- `sse_event`: `"\n".join(parts) + "\n"`. -/
def sse_event (data : String) (event : Option String) (id : Option String) :
    String :=
  String.intercalate "\n" (sseParts data event id) ++ "\n"

/-- The frame put on the queue by `heartbeat_generator`:
`sse_event("[heartbeat]", event="heartbeat")` — no id argument. -/
def heartbeatFrame : String :=
  sse_event "[heartbeat]" (some "heartbeat") none

/-- `emit_event` of `app.py` with the default `event_id_val=None` path: the
session counter is incremented, and the frame is
`sse_event(payload, event=event, id=str(event_id))`.  The JSON payload
serialization is external; `payload` is the already-serialized data string.
Returns the frame and the new counter. -/
def emit_event (event_id : Nat) (payload event : String) : String × Nat :=
  (sse_event payload (some event) (some (Nat.repr (event_id + 1))),
   event_id + 1)

/-- Emitting a sequence of `(payload, event)` pairs through `emit_event`,
pairing every frame with the id it was assigned. -/
def emitAll (event_id : Nat) :
    List (String × String) → List (String × Nat) × Nat
  | [] => ([], event_id)
  | (d, ev) :: rest =>
    match emit_event event_id d ev with
    | (frame, id1) =>
      match emitAll id1 rest with
      | (frames, idF) => ((frame, id1) :: frames, idF)

/-- The keys of the `event_data` dict built by `emit_event` in the backend
chat endpoint (`backend/app/api/v1/endpoints/chat.py`), which is then sent
as `"data: " + json.dumps(event_data)` with no SSE id line. -/
def chatEventDataKeys : List String :=
  ["type", "content", "timestamp", "risk_score"]

/-! ### Derived forms used in the specifications -/

/-- The score contributed by one `(pattern_name, search)` entry of the
pattern loop: the first-Luhn-valid credit-card weight for the
`credit_card_candidate` entry, the (regionally effective) weight of the
pattern when its regex matches, zero otherwise. -/
def patternContribution (det : RegulatedPatternDetector)
    (weights : List (String × ℚ)) (text : String)
    (p : String × (String → Bool)) : ℚ :=
  if p.1 == "credit_card_candidate" then
    ccScore (det.finditerCC text) (dictGet weights "credit_card" 1.5)
  else if p.2 text then dictGet weights (weightKey p.1) 0.5
  else 0

/-- State-passing form of `assess_compliance_risk` that also returns the
value held by the global `COMPLIANCE_POLICY` after the call.  The source
takes `weights = COMPLIANCE_POLICY["weights"].copy()` (compliance.py line
141) and applies `weights.update(...)` to that copy only, so the global
policy value after the call is the value before it; had the code updated
the dict in place, this wrapper would have to return the updated policy. -/
def assess_compliance_risk_global (det : RegulatedPatternDetector)
    (policy : CompliancePolicy) (risk_threshold : ℚ)
    (hashFn : String → String) (text : String) (region : Option String) :
    ComplianceResult × CompliancePolicy :=
  (assess_compliance_risk det policy risk_threshold hashFn text region,
   policy)

/-- The analysis positions recorded by a run of `process_new_tokens` over a
piece sequence. -/
def feedPositions (tc : String → Nat) (enc : String → List Nat)
    (dec : List Nat → String) (policy : CompliancePolicy)
    (risk_threshold confidence_threshold : ℚ) (hashFn : String → String)
    (pattern_detector : Option RegulatedPatternDetector)
    (presidio_detector : Option PresidioDetector) (region : Option String)
    (pieces : List (String × String)) (st : AnalyzerState) : List Nat :=
  ((feedTokens tc enc dec policy risk_threshold confidence_threshold hashFn
      pattern_detector presidio_detector region pieces st).2).map
    (fun a => a.analysis_position)

/-! ### Concrete test fixtures for the witnesses and counterexamples -/

/-- A 96-character piece; 24 tokens under the fallback tokenizer. -/
def pieceA96 : String := String.mk (List.replicate 96 'a')

/-- A second 96-character piece; 24 tokens under the fallback tokenizer. -/
def pieceC96 : String := String.mk (List.replicate 96 'c')

/-- A 120-character piece; 30 tokens under the fallback tokenizer. -/
def pieceA120 : String := String.mk (List.replicate 120 'a')

/-- A detector whose only pattern entry is a `diagnosis` regex that matches
everything (base weight 0.7 — exactly the default risk threshold). -/
def fixtureDiagnosisDetector : RegulatedPatternDetector :=
  { patterns := [("diagnosis", fun _ => true)], finditerCC := fun _ => [] }

/-- A detector with an empty pattern dict. -/
def emptyPatternDetector : RegulatedPatternDetector :=
  { patterns := [], finditerCC := fun _ => [] }

/-- A detector whose only pattern entry is an `email` regex that matches
everything. -/
def fixtureEmailDetector : RegulatedPatternDetector :=
  { patterns := [("email", fun _ => true)], finditerCC := fun _ => [] }

/-- A Presidio detector whose analyzer engine raises on every input. -/
def failingPresidio : PresidioDetector :=
  { analyzer := some (fun _ => Except.error "Presidio analysis failed") }

/-- Recognizer results: a confident PERSON hit and a DATE_TIME hit below
the 0.6 confidence floor. -/
def resultsFixture : List RecognizerResult :=
  [{ entity_type := "PERSON", start := 0, stop := 5, score := 0.85 },
   { entity_type := "DATE_TIME", start := 6, stop := 8, score := 0.3 }]

/-- An analyzer engine that returns `resultsFixture` on every input. -/
def okEngine : String → Except String (List RecognizerResult) :=
  fun _ => Except.ok resultsFixture

/-- A Presidio detector wrapping `okEngine`. -/
def okPresidio : PresidioDetector := { analyzer := some okEngine }

/-- 25 single-token pieces (4 characters each under the fallback
tokenizer). -/
def unitPieces : List (String × String) :=
  List.replicate 25 ("aaaa", "aaaa")

/-- A trivial injected encoder. -/
def encTrivial : String → List Nat := fun _ => []

/-- A trivial injected decoder. -/
def decTrivial : List Nat → String := fun _ => ""

/-! ## Helper lemmas -/

lemma assessStep_foldl_fst (det : RegulatedPatternDetector)
    (weights : List (String × ℚ)) (text : String) :
    ∀ (pats : List (String × (String → Bool))) (acc : ℚ × List String),
      (pats.foldl (assessStep det weights text) acc).1 =
        acc.1 + (pats.map (patternContribution det weights text)).sum := by
  intro pats
  induction pats with
  | nil => intro acc; simp
  | cons p rest ih =>
    intro acc
    simp only [List.foldl_cons, List.map_cons, List.sum_cons, ih]
    unfold assessStep patternContribution ccScore
    cases h1 : (p.1 == "credit_card_candidate")
    · simp only [Bool.false_eq_true, if_false, h1]
      cases h2 : p.2 text
      · simp [h2]
      · simp [h2]; ring
    · simp only [if_true, h1]
      cases hf : (det.finditerCC text).find? (fun m => luhn_check m)
      · simp [hf]
      · simp [hf]; ring

/-- The score of `assess_compliance_risk` is the sum of the per-pattern
contributions under the effective (regionally overridden) weights. -/
lemma assess_score_eq_sum (det : RegulatedPatternDetector)
    (policy : CompliancePolicy) (risk_threshold : ℚ)
    (hashFn : String → String) (text : String) (region : Option String) :
    (assess_compliance_risk det policy risk_threshold hashFn text
        region).score =
      (det.patterns.map
        (patternContribution det (effectiveWeights policy region) text)).sum := by
  unfold assess_compliance_risk
  simp [assessStep_foldl_fst]

lemma analyzeStep_foldl (confidence_threshold : ℚ) (text : String) :
    ∀ (results : List RecognizerResult) (acc : ℚ × List PresidioEntity),
      results.foldl (analyzeStep confidence_threshold text) acc =
        (acc.1 +
          ((results.filter
              (fun r => decide (confidence_threshold ≤ r.score))).map
            (fun r => dictGet entity_weights r.entity_type 0.3 * r.score)).sum,
         acc.2 ++
          ((results.filter
              (fun r => decide (confidence_threshold ≤ r.score))).map
            (mkPresidioEntity text))) := by
  intro results
  induction results with
  | nil => intro acc; simp
  | cons r rest ih =>
    intro acc
    simp only [List.foldl_cons, ih]
    unfold analyzeStep
    by_cases h : confidence_threshold ≤ r.score
    · simp [h]; ring
    · simp [h]

/-- The emitted prefix chosen by the `flush_tokens` counting loop stays
within the token budget. -/
lemma piecesToEmit_take_sum (tc : String → Nat) :
    ∀ (l : List String) (budget : Nat),
      ((l.take (piecesToEmit tc l budget)).map tc).sum ≤ budget := by
  intro l
  induction l with
  | nil => intro b; simp [piecesToEmit]
  | cons p rest ih =>
    intro b
    by_cases h : tc p ≤ b
    · simp only [piecesToEmit, if_pos h, List.take_succ_cons, List.map_cons,
        List.sum_cons]
      have := ih (b - tc p)
      omega
    · simp [piecesToEmit, h]

lemma chain'_lt_range' (n : Nat) :
    ∀ s : Nat, List.Chain' (· < ·) (List.range' s n) := by
  induction n with
  | zero => intro s; simp
  | succ m ih =>
    intro s
    rw [List.range'_succ, List.chain'_cons']
    refine ⟨?_, ih (s + 1)⟩
    intro y hy
    cases m with
    | zero => simp at hy
    | succ k =>
      rw [List.range'_succ] at hy
      simp at hy
      omega

/-! ## Claim theorems -/

/-- C2 (code bug, fail-open at the failing input): when the Presidio
analyzer engine raises on the text `"My SSN is 123-45-6789"`,
`analyze_text` swallows the exception and returns score `0.0` with no
entities, so an analysis window whose only evaluator is the failing
Presidio step gets verdict ALLOW (`blocked = false`) — not the BLOCK that
the fail-closed design rule demands. -/
theorem C2_presidio_fail_open :
    analyze_text failingPresidio settings.presidio_confidence_threshold
        "My SSN is 123-45-6789" = (0, []) ∧
    (analyze_window COMPLIANCE_POLICY settings.risk_threshold
        settings.presidio_confidence_threshold (fun _ => "") none
        (some failingPresidio) "My SSN is 123-45-6789" 0 10 none
        AnalyzerState.init).1.blocked = false ∧
    (analyze_window COMPLIANCE_POLICY settings.risk_threshold
        settings.presidio_confidence_threshold (fun _ => "") none
        (some failingPresidio) "My SSN is 123-45-6789" 0 10 none
        AnalyzerState.init).1.total_score = 0 := by
  refine ⟨rfl, ?_, ?_⟩ <;>
    norm_num [analyze_window, analyze_text, failingPresidio, settings]

/-- C6: the blocking decision is inclusive, in `assess_compliance_risk`
and in `analyze_window` alike: a total score exactly equal to the risk
threshold yields BLOCK (`blocked = true`), a score strictly below yields
ALLOW (`blocked = false`). -/
theorem C6_inclusive_threshold (det : RegulatedPatternDetector)
    (policy : CompliancePolicy) (risk_threshold confidence_threshold : ℚ)
    (hashFn : String → String) (text : String) (region : Option String)
    (pattern_detector : Option RegulatedPatternDetector)
    (presidio_detector : Option PresidioDetector)
    (window_start window_end : Nat) (st : AnalyzerState) :
    ((assess_compliance_risk det policy risk_threshold hashFn text
        region).score = risk_threshold →
      (assess_compliance_risk det policy risk_threshold hashFn text
        region).blocked = true) ∧
    ((assess_compliance_risk det policy risk_threshold hashFn text
        region).score < risk_threshold →
      (assess_compliance_risk det policy risk_threshold hashFn text
        region).blocked = false) ∧
    ((analyze_window policy risk_threshold confidence_threshold hashFn
        pattern_detector presidio_detector text window_start window_end
        region st).1.total_score = risk_threshold →
      (analyze_window policy risk_threshold confidence_threshold hashFn
        pattern_detector presidio_detector text window_start window_end
        region st).1.blocked = true) ∧
    ((analyze_window policy risk_threshold confidence_threshold hashFn
        pattern_detector presidio_detector text window_start window_end
        region st).1.total_score < risk_threshold →
      (analyze_window policy risk_threshold confidence_threshold hashFn
        pattern_detector presidio_detector text window_start window_end
        region st).1.blocked = false) := by
  have hb : (assess_compliance_risk det policy risk_threshold hashFn text
      region).blocked
      = decide (risk_threshold ≤ (assess_compliance_risk det policy
          risk_threshold hashFn text region).score) := rfl
  have hw : (analyze_window policy risk_threshold confidence_threshold hashFn
      pattern_detector presidio_detector text window_start window_end
      region st).1.blocked
      = decide (risk_threshold ≤ (analyze_window policy risk_threshold
          confidence_threshold hashFn pattern_detector presidio_detector
          text window_start window_end region st).1.total_score) := rfl
  refine ⟨?_, ?_, ?_, ?_⟩
  · intro h
    rw [hb, h]
    simp
  · intro h
    rw [hb]
    simp only [decide_eq_false_iff_not]
    exact not_le_of_lt h
  · intro h
    rw [hw, h]
    simp
  · intro h
    rw [hw]
    simp only [decide_eq_false_iff_not]
    exact not_le_of_lt h

/-- C9: `assess_compliance_risk` never mutates the global compliance
policy: the regional override is applied to a copy of the weight dict, so
the policy value after a call equals the value before it, a subsequent
call on the post-call policy behaves exactly like one on the pre-call
policy, and concretely the HIPAA override (medical_record 1.5) is visible
only inside the overridden call while the base weight stays 1.0. -/
theorem C9_policy_frame :
    (∀ (det : RegulatedPatternDetector) (policy : CompliancePolicy)
        (risk_threshold : ℚ) (hashFn : String → String) (text : String)
        (region : Option String),
      (assess_compliance_risk_global det policy risk_threshold hashFn text
        region).2 = policy) ∧
    (∀ (det det2 : RegulatedPatternDetector) (policy : CompliancePolicy)
        (risk_threshold risk_threshold2 : ℚ)
        (hashFn hashFn2 : String → String) (text text2 : String)
        (region region2 : Option String),
      assess_compliance_risk det2
          ((assess_compliance_risk_global det policy risk_threshold hashFn
            text region).2) risk_threshold2 hashFn2 text2 region2
        = assess_compliance_risk det2 policy risk_threshold2 hashFn2 text2
            region2) ∧
    effectiveWeights COMPLIANCE_POLICY none = COMPLIANCE_POLICY.weights ∧
    dictGet (effectiveWeights COMPLIANCE_POLICY (some "HIPAA"))
        "medical_record" 0 = 1.5 ∧
    dictGet COMPLIANCE_POLICY.weights "medical_record" 0 = 1.0 := by
  refine ⟨fun _ _ _ _ _ _ => rfl, fun _ _ _ _ _ _ _ _ _ _ _ => rfl, rfl,
    ?_, ?_⟩
  · simp [dictGet, effectiveWeights, dictUpdate, dictSet, dictContains,
      COMPLIANCE_POLICY]
  · simp [dictGet, COMPLIANCE_POLICY]

/-- C10: in the credit-card branch of `assess_compliance_risk`, the
credit-card weight is added exactly once when any candidate is Luhn-valid
and never otherwise (no matter how many valid candidates occur), a
candidate with fewer than 13 or more than 19 digits always fails
`luhn_check`, and a detector whose sole pattern entry is
`credit_card_candidate` scores exactly that single contribution. -/
theorem C10_credit_card_once :
    (∀ (candidates : List String) (w : ℚ),
      ccScore candidates w =
        if candidates.any luhn_check then w else 0) ∧
    (∀ s : String,
      (luhnDigits s).length < 13 ∨ 19 < (luhnDigits s).length →
      luhn_check s = false) ∧
    (∀ (m : String → Bool) (fi : String → List String)
        (policy : CompliancePolicy) (risk_threshold : ℚ)
        (hashFn : String → String) (text : String) (region : Option String),
      (assess_compliance_risk
          { patterns := [("credit_card_candidate", m)], finditerCC := fi }
          policy risk_threshold hashFn text region).score
        = ccScore (fi text)
            (dictGet (effectiveWeights policy region) "credit_card" 1.5)) := by
  refine ⟨?_, ?_, ?_⟩
  · intro candidates w
    induction candidates with
    | nil => simp [ccScore]
    | cons c rest ih =>
      by_cases h : luhn_check c = true
      · simp [ccScore, List.find?, h]
      · simp only [Bool.not_eq_true] at h
        simp [ccScore, List.find?, h] at ih ⊢
        exact ih
  · intro s hs
    show (if (decide ((luhnDigits s).length < 13)
          || decide ((luhnDigits s).length > 19)) = true then false
        else (luhnSum (luhnDigits s).reverse false % 10 == 0)) = false
    rw [if_pos]
    rcases hs with h | h <;> simp [h]
  · intro m fi policy risk_threshold hashFn text region
    rw [assess_score_eq_sum]
    simp [patternContribution]

/-- C10 witness: two Luhn-valid card numbers still contribute the weight
exactly once, and a 12-digit candidate is rejected by `luhn_check`. -/
theorem C10_credit_card_once_witness :
    ccScore ["4111 1111 1111 1111", "5500 0000 0000 0004"] (3/2) = 3/2 ∧
    ((luhnDigits "123456789012").length < 13 ∨
      19 < (luhnDigits "123456789012").length) ∧
    luhn_check "123456789012" = false ∧
    (assess_compliance_risk
        { patterns := [("credit_card_candidate", fun _ => true)],
          finditerCC := fun _ =>
            ["4111 1111 1111 1111", "5500 0000 0000 0004"] }
        COMPLIANCE_POLICY (7/10) (fun _ => "") "pay" none).score
      = ccScore ["4111 1111 1111 1111", "5500 0000 0000 0004"]
          (dictGet (effectiveWeights COMPLIANCE_POLICY none)
            "credit_card" 1.5) :=
  ⟨by rw [C10_credit_card_once.1, if_pos (by decide)], by decide,
   C10_credit_card_once.2.1 "123456789012" (by decide),
   C10_credit_card_once.2.2 (fun _ => true)
     (fun _ => ["4111 1111 1111 1111", "5500 0000 0000 0004"])
     COMPLIANCE_POLICY (7/10) (fun _ => "") "pay" none⟩

/-- C6 witness: a detector whose `diagnosis` pattern fires scores exactly
the 0.7 base weight — equal to the default risk threshold — and is
blocked, both directly and through `analyze_window`; an empty detector
scores 0 and is allowed. -/
theorem C6_inclusive_threshold_witness :
    (assess_compliance_risk fixtureDiagnosisDetector COMPLIANCE_POLICY
        settings.risk_threshold (fun _ => "") "case" none).score
      = settings.risk_threshold ∧
    (assess_compliance_risk fixtureDiagnosisDetector COMPLIANCE_POLICY
        settings.risk_threshold (fun _ => "") "case" none).blocked = true ∧
    (assess_compliance_risk emptyPatternDetector COMPLIANCE_POLICY
        settings.risk_threshold (fun _ => "") "case" none).score
      < settings.risk_threshold ∧
    (assess_compliance_risk emptyPatternDetector COMPLIANCE_POLICY
        settings.risk_threshold (fun _ => "") "case" none).blocked = false ∧
    (analyze_window COMPLIANCE_POLICY settings.risk_threshold
        settings.presidio_confidence_threshold (fun _ => "")
        (some fixtureDiagnosisDetector) none "case" 0 1 none
        AnalyzerState.init).1.total_score = settings.risk_threshold ∧
    (analyze_window COMPLIANCE_POLICY settings.risk_threshold
        settings.presidio_confidence_threshold (fun _ => "")
        (some fixtureDiagnosisDetector) none "case" 0 1 none
        AnalyzerState.init).1.blocked = true ∧
    (analyze_window COMPLIANCE_POLICY settings.risk_threshold
        settings.presidio_confidence_threshold (fun _ => "") none none
        "case" 0 1 none AnalyzerState.init).1.total_score
      < settings.risk_threshold ∧
    (analyze_window COMPLIANCE_POLICY settings.risk_threshold
        settings.presidio_confidence_threshold (fun _ => "") none none
        "case" 0 1 none AnalyzerState.init).1.blocked = false := by
  have hwk : weightKey "diagnosis" = "diagnosis" := by decide
  have h1 : (assess_compliance_risk fixtureDiagnosisDetector
      COMPLIANCE_POLICY settings.risk_threshold (fun _ => "") "case"
      none).score = settings.risk_threshold := by
    rw [assess_score_eq_sum]
    simp [patternContribution, fixtureDiagnosisDetector, hwk, dictGet,
      effectiveWeights, COMPLIANCE_POLICY, List.find?]
    norm_num [settings]
  have h2 : (assess_compliance_risk emptyPatternDetector COMPLIANCE_POLICY
      settings.risk_threshold (fun _ => "") "case" none).score
      < settings.risk_threshold := by
    have hz : (assess_compliance_risk emptyPatternDetector COMPLIANCE_POLICY
        settings.risk_threshold (fun _ => "") "case" none).score = 0 := rfl
    rw [hz]
    norm_num [settings]
  have h3 : (analyze_window COMPLIANCE_POLICY settings.risk_threshold
      settings.presidio_confidence_threshold (fun _ => "")
      (some fixtureDiagnosisDetector) none "case" 0 1 none
      AnalyzerState.init).1.total_score = settings.risk_threshold := by
    have hz : (analyze_window COMPLIANCE_POLICY settings.risk_threshold
        settings.presidio_confidence_threshold (fun _ => "")
        (some fixtureDiagnosisDetector) none "case" 0 1 none
        AnalyzerState.init).1.total_score
        = (assess_compliance_risk fixtureDiagnosisDetector COMPLIANCE_POLICY
            settings.risk_threshold (fun _ => "") "case" none).score + 0 :=
      rfl
    rw [hz, h1, add_zero]
  have h4 : (analyze_window COMPLIANCE_POLICY settings.risk_threshold
      settings.presidio_confidence_threshold (fun _ => "") none none
      "case" 0 1 none AnalyzerState.init).1.total_score
      < settings.risk_threshold := by
    have hz : (analyze_window COMPLIANCE_POLICY settings.risk_threshold
        settings.presidio_confidence_threshold (fun _ => "") none none
        "case" 0 1 none AnalyzerState.init).1.total_score = 0 + 0 := rfl
    rw [hz]
    norm_num [settings]
  exact ⟨h1,
    (C6_inclusive_threshold fixtureDiagnosisDetector COMPLIANCE_POLICY
      settings.risk_threshold settings.presidio_confidence_threshold
      (fun _ => "") "case" none (some fixtureDiagnosisDetector) none 0 1
      AnalyzerState.init).1 h1,
    h2,
    (C6_inclusive_threshold emptyPatternDetector COMPLIANCE_POLICY
      settings.risk_threshold settings.presidio_confidence_threshold
      (fun _ => "") "case" none (some fixtureDiagnosisDetector) none 0 1
      AnalyzerState.init).2.1 h2,
    h3,
    (C6_inclusive_threshold fixtureDiagnosisDetector COMPLIANCE_POLICY
      settings.risk_threshold settings.presidio_confidence_threshold
      (fun _ => "") "case" none (some fixtureDiagnosisDetector) none 0 1
      AnalyzerState.init).2.2.1 h3,
    h4,
    (C6_inclusive_threshold fixtureDiagnosisDetector COMPLIANCE_POLICY
      settings.risk_threshold settings.presidio_confidence_threshold
      (fun _ => "") "case" none none none 0 1
      AnalyzerState.init).2.2.2 h4⟩

/-- C3: on a non-empty buffer, `flush_tokens` with `force=False` emits
exactly the counted prefix, whose cumulative token count is at most
`total - delay_tokens` (0 when the buffer holds at most `delay_tokens`
tokens), so at least `min delay_tokens total` tokens stay buffered; with
`force=True` the whole buffer is emitted in FIFO order and the buffer
empties. -/
theorem C3_flush_lookahead (tc : String → Nat) (delay_tokens : Nat)
    (buffer : List String) (h : buffer ≠ []) :
    ((chatFlushTokens tc delay_tokens false buffer).emitted
        = buffer.take (flushCount tc delay_tokens false buffer) ∧
      (chatFlushTokens tc delay_tokens false buffer).buffer
        = buffer.drop (flushCount tc delay_tokens false buffer) ∧
      (((chatFlushTokens tc delay_tokens false buffer).emitted.map tc).sum
        ≤ (buffer.map tc).sum - delay_tokens) ∧
      min delay_tokens ((buffer.map tc).sum)
        ≤ (((chatFlushTokens tc delay_tokens false buffer).buffer).map
            tc).sum) ∧
    chatFlushTokens tc delay_tokens true buffer
      = { emitted := buffer, evals := [], vetoed := false, buffer := [] } := by
  have hne : buffer.isEmpty = false := by
    cases buffer with
    | nil => exact absurd rfl h
    | cons a l => rfl
  have hemit : ((buffer.take (flushCount tc delay_tokens false buffer)).map
      tc).sum ≤ (buffer.map tc).sum - delay_tokens := by
    by_cases h0 : 0 < (buffer.map tc).sum - delay_tokens
    · have hfc : flushCount tc delay_tokens false buffer
          = piecesToEmit tc buffer ((buffer.map tc).sum - delay_tokens) := by
        simp [flushCount, h0]
      rw [hfc]
      exact piecesToEmit_take_sum tc buffer _
    · have hfc : flushCount tc delay_tokens false buffer = 0 := by
        simp [flushCount, h0]
      rw [hfc]
      simp
  have hsum : ((buffer.take (flushCount tc delay_tokens false buffer)).map
        tc).sum
      + ((buffer.drop (flushCount tc delay_tokens false buffer)).map tc).sum
      = (buffer.map tc).sum := by
    rw [← List.sum_append, ← List.map_append, List.take_append_drop]
  refine ⟨⟨?_, ?_, ?_, ?_⟩, ?_⟩
  · simp [chatFlushTokens, hne]
  · simp [chatFlushTokens, hne]
  · simpa [chatFlushTokens, hne] using hemit
  · simp only [chatFlushTokens, hne, Bool.false_eq_true, if_false]
    omega
  · simp [chatFlushTokens, hne, flushCount]

/-- C3 witness: on a two-piece, 48-token buffer with the default 24-token
look-ahead, at least 24 tokens remain buffered after a non-forced flush,
and a forced flush emits both pieces and empties the buffer. -/
theorem C3_flush_lookahead_witness :
    ([pieceA96, pieceC96] : List String) ≠ [] ∧
    min 24 (([pieceA96, pieceC96].map fallback_token_count).sum)
      ≤ (((chatFlushTokens fallback_token_count 24 false
          [pieceA96, pieceC96]).buffer).map fallback_token_count).sum ∧
    chatFlushTokens fallback_token_count 24 true [pieceA96, pieceC96]
      = { emitted := [pieceA96, pieceC96], evals := [], vetoed := false,
          buffer := [] } :=
  ⟨by decide,
   (C3_flush_lookahead fallback_token_count 24 [pieceA96, pieceC96]
      (by decide)).1.2.2.2,
   (C3_flush_lookahead fallback_token_count 24 [pieceA96, pieceC96]
      (by decide)).2⟩

/-- C4: `extract_analysis_window` slices the token sequence at
`[max(0, pos - W + O), min(totalTokens, pos + O))`, decodes exactly that
slice, and the slice never holds more than `W` tokens. -/
theorem C4_extract_window (enc : String → List Nat) (dec : List Nat → String)
    (window_size overlap_size : Nat) (full_text : String)
    (current_position : Nat) :
    ((extract_analysis_window enc dec window_size overlap_size full_text
        current_position).2.1 : Int)
      = max 0 ((current_position : Int) - window_size + overlap_size) ∧
    (extract_analysis_window enc dec window_size overlap_size full_text
        current_position).2.2
      = min (enc full_text).length (current_position + overlap_size) ∧
    (extract_analysis_window enc dec window_size overlap_size full_text
        current_position).1
      = dec (((enc full_text).drop
            ((extract_analysis_window enc dec window_size overlap_size
              full_text current_position).2.1)).take
          ((extract_analysis_window enc dec window_size overlap_size
              full_text current_position).2.2
            - (extract_analysis_window enc dec window_size overlap_size
                full_text current_position).2.1)) ∧
    (((enc full_text).drop
          ((extract_analysis_window enc dec window_size overlap_size
            full_text current_position).2.1)).take
        ((extract_analysis_window enc dec window_size overlap_size full_text
            current_position).2.2
          - (extract_analysis_window enc dec window_size overlap_size
              full_text current_position).2.1)).length
      ≤ window_size := by
  refine ⟨?_, rfl, rfl, ?_⟩
  · simp only [extract_analysis_window]
    omega
  · simp only [extract_analysis_window, List.length_take, List.length_drop]
    omega

/-- C7: the total score of an analyzed window is the sum of the matched
pattern weights (under the regionally effective weight dict, with the
credit-card candidate contributing its weight once when Luhn-valid) plus
the sum over recognized entities at or above the confidence floor of
`entity_weight(type) * confidence`; entities below the floor are discarded
from both the score and the entity list. -/
theorem C7_score_decomposition (policy : CompliancePolicy)
    (risk_threshold confidence_threshold : ℚ) (hashFn : String → String)
    (det : RegulatedPatternDetector) (pdet : PresidioDetector)
    (engine : String → Except String (List RecognizerResult))
    (results : List RecognizerResult) (window_text : String)
    (window_start window_end : Nat) (region : Option String)
    (st : AnalyzerState)
    (ha : pdet.analyzer = some engine)
    (he : engine window_text = Except.ok results) :
    (analyze_window policy risk_threshold confidence_threshold hashFn
        (some det) (some pdet) window_text window_start window_end region
        st).1.total_score
      = (det.patterns.map (patternContribution det
          (effectiveWeights policy region) window_text)).sum
        + ((results.filter
            (fun r => decide (confidence_threshold ≤ r.score))).map
          (fun r => dictGet entity_weights r.entity_type 0.3 * r.score)).sum ∧
    (analyze_window policy risk_threshold confidence_threshold hashFn
        (some det) (some pdet) window_text window_start window_end region
        st).1.presidio_entities
      = (results.filter
          (fun r => decide (confidence_threshold ≤ r.score))).map
          (mkPresidioEntity window_text) := by
  have h1 : analyze_text pdet confidence_threshold window_text
      = (((results.filter
            (fun r => decide (confidence_threshold ≤ r.score))).map
          (fun r => dictGet entity_weights r.entity_type 0.3 * r.score)).sum,
         (results.filter
            (fun r => decide (confidence_threshold ≤ r.score))).map
          (mkPresidioEntity window_text)) := by
    simp [analyze_text, ha, he, analyzeStep_foldl]
  constructor
  · have h0 : (analyze_window policy risk_threshold confidence_threshold
        hashFn (some det) (some pdet) window_text window_start window_end
        region st).1.total_score
        = (assess_compliance_risk det policy risk_threshold hashFn
            window_text region).score
          + (analyze_text pdet confidence_threshold window_text).1 := rfl
    rw [h0, assess_score_eq_sum, h1]
  · have h0 : (analyze_window policy risk_threshold confidence_threshold
        hashFn (some det) (some pdet) window_text window_start window_end
        region st).1.presidio_entities
        = (analyze_text pdet confidence_threshold window_text).2 := rfl
    rw [h0, h1]

/-- C7 witness: under the GDPR override, an always-matching `email`
pattern plus a 0.85-confident PERSON entity and a 0.3-confident DATE_TIME
entity (below the 0.6 floor) score pattern-sum + 0.5 × 0.85, and only the
PERSON entity survives into the entity list. -/
theorem C7_score_decomposition_witness :
    okPresidio.analyzer = some okEngine ∧
    okEngine "Alice a@b.io" = Except.ok resultsFixture ∧
    (analyze_window COMPLIANCE_POLICY (7/10) (3/5) (fun _ => "")
        (some fixtureEmailDetector) (some okPresidio) "Alice a@b.io" 0 5
        (some "GDPR") AnalyzerState.init).1.total_score
      = (fixtureEmailDetector.patterns.map
          (patternContribution fixtureEmailDetector
            (effectiveWeights COMPLIANCE_POLICY (some "GDPR"))
            "Alice a@b.io")).sum
        + ((resultsFixture.filter
            (fun r => decide ((3/5 : ℚ) ≤ r.score))).map
          (fun r => dictGet entity_weights r.entity_type 0.3 * r.score)).sum ∧
    (analyze_window COMPLIANCE_POLICY (7/10) (3/5) (fun _ => "")
        (some fixtureEmailDetector) (some okPresidio) "Alice a@b.io" 0 5
        (some "GDPR") AnalyzerState.init).1.presidio_entities
      = (resultsFixture.filter
          (fun r => decide ((3/5 : ℚ) ≤ r.score))).map
          (mkPresidioEntity "Alice a@b.io") :=
  ⟨rfl, rfl,
   (C7_score_decomposition COMPLIANCE_POLICY (7/10) (3/5) (fun _ => "")
      fixtureEmailDetector okPresidio okEngine resultsFixture "Alice a@b.io"
      0 5 (some "GDPR") AnalyzerState.init rfl rfl).1,
   (C7_score_decomposition COMPLIANCE_POLICY (7/10) (3/5) (fun _ => "")
      fixtureEmailDetector okPresidio okEngine resultsFixture "Alice a@b.io"
      0 5 (some "GDPR") AnalyzerState.init rfl rfl).2⟩

/-- C1 counterexample: the backend chat endpoint's `flush_tokens` emits a
chunk from a 48-token buffer while performing no risk evaluation at all
(its evaluation trace is empty), so the emitted piece is not covered by
any completed ALLOW evaluation, contradicting the claim for this
streaming path. -/
theorem C1_counterexample :
    chatFlushTokens fallback_token_count 24 false [pieceA96, pieceC96]
      = { emitted := [pieceA96], evals := [], vetoed := false,
          buffer := [pieceC96] } ∧
    (chatFlushTokens fallback_token_count 24 false
        [pieceA96, pieceC96]).emitted ≠ [] ∧
    (chatFlushTokens fallback_token_count 24 false
        [pieceA96, pieceC96]).evals = [] := by
  refine ⟨by decide, by decide, by decide⟩

/-- C1 (amended): in the `app.py` pipeline, whenever `flush_tokens` emits
chunk pieces, the entire current buffer text was evaluated in that same
call with a score strictly below the threshold (verdict ALLOW), the
emitted batch itself was re-evaluated below the threshold, the emitted
pieces form the counted FIFO prefix of the buffer, and the session is not
vetoed. -/
theorem C1_app_flush_coverage (tc : String → Nat) (score : String → ℚ)
    (risk_threshold : ℚ) (delay_tokens : Nat) (force vetoed : Bool)
    (buffer : List String)
    (h : (appFlushTokens tc score risk_threshold delay_tokens force vetoed
        buffer).emitted ≠ []) :
    (String.join buffer ≠ "" →
      String.join buffer ∈ (appFlushTokens tc score risk_threshold
          delay_tokens force vetoed buffer).evals ∧
      score (String.join buffer) < risk_threshold) ∧
    score (String.join ((appFlushTokens tc score risk_threshold delay_tokens
        force vetoed buffer).emitted)) < risk_threshold ∧
    (appFlushTokens tc score risk_threshold delay_tokens force vetoed
        buffer).emitted
      = buffer.take (flushCount tc delay_tokens force buffer) ∧
    (appFlushTokens tc score risk_threshold delay_tokens force vetoed
        buffer).vetoed = false := by
  by_cases hv : vetoed = true
  · exact absurd (by simp [appFlushTokens, hv]) h
  · have hv' : vetoed = false := by
      cases vetoed
      · rfl
      · exact absurd rfl hv
    by_cases hbe : buffer.isEmpty = true
    · exact absurd (by simp [appFlushTokens, hv', hbe]) h
    · have hbe' : buffer.isEmpty = false := by
        cases hb : buffer.isEmpty
        · rfl
        · exact absurd hb hbe
      by_cases hc1 : (String.join buffer ≠ ""
          ∧ risk_threshold ≤ score (String.join buffer))
      · exact absurd (by simp [appFlushTokens, hv', hbe', hc1]) h
      · by_cases hpe : (buffer.take (flushCount tc delay_tokens force
            buffer)).isEmpty = true
        · exact absurd (by simp [appFlushTokens, hv', hbe', hc1, hpe]) h
        · by_cases hc2 : risk_threshold ≤ score (String.join
              (buffer.take (flushCount tc delay_tokens force buffer)))
          · exact absurd
              (by simp [appFlushTokens, hv', hbe', hc1, hpe, hc2]) h
          · have hout : appFlushTokens tc score risk_threshold delay_tokens
                force vetoed buffer
                = { emitted := buffer.take (flushCount tc delay_tokens force
                      buffer),
                    evals := (if String.join buffer ≠ ""
                        then [String.join buffer] else [])
                      ++ [String.join (buffer.take (flushCount tc
                          delay_tokens force buffer))],
                    vetoed := vetoed,
                    buffer := buffer.drop (flushCount tc delay_tokens force
                      buffer) } := by
              simp [appFlushTokens, hv', hbe', hc1, hpe, hc2]
            push_neg at hc1
            rw [hout]
            refine ⟨?_, ?_, rfl, hv'⟩
            · intro hjb
              rw [if_pos hjb]
              exact ⟨List.mem_cons_self _ _, hc1 hjb⟩
            · exact not_le.mp hc2

/-- C1 amended-claim witness: with a never-firing evaluator, the app.py
flush on a 48-token buffer emits the first piece, the full buffer text is
in its evaluation trace below the threshold, and the call is not
vetoed. -/
theorem C1_app_flush_coverage_witness :
    (appFlushTokens fallback_token_count (fun _ => 0) (7/10) 24 false false
        [pieceA96, pieceC96]).emitted ≠ [] ∧
    String.join [pieceA96, pieceC96] ≠ "" ∧
    (String.join [pieceA96, pieceC96]
        ∈ (appFlushTokens fallback_token_count (fun _ => 0) (7/10) 24 false
            false [pieceA96, pieceC96]).evals ∧
      (0 : ℚ) < 7/10) ∧
    (0 : ℚ) < 7/10 ∧
    (appFlushTokens fallback_token_count (fun _ => 0) (7/10) 24 false false
        [pieceA96, pieceC96]).emitted
      = [pieceA96, pieceC96].take (flushCount fallback_token_count 24 false
          [pieceA96, pieceC96]) ∧
    (appFlushTokens fallback_token_count (fun _ => 0) (7/10) 24 false false
        [pieceA96, pieceC96]).vetoed = false := by
  have hne : (appFlushTokens fallback_token_count (fun _ => 0) (7/10) 24
      false false [pieceA96, pieceC96]).emitted ≠ [] := by
    rw [show (appFlushTokens fallback_token_count (fun _ => 0) (7/10) 24
        false false [pieceA96, pieceC96]).emitted = [pieceA96] from by
      norm_num [appFlushTokens, flushCount, piecesToEmit, fallback_token_count,
        pieceA96, pieceC96]]
    simp
  have hmain := C1_app_flush_coverage fallback_token_count (fun _ => 0)
    (7/10) 24 false false [pieceA96, pieceC96] hne
  have hjoin : String.join [pieceA96, pieceC96] ≠ "" := by decide
  exact ⟨hne, hjoin, hmain.1 hjoin, hmain.2.1, hmain.2.2.1, hmain.2.2.2⟩

lemma pnt_not_trigger (tc : String → Nat) (enc : String → List Nat)
    (dec : List Nat → String) (policy : CompliancePolicy)
    (risk_threshold confidence_threshold : ℚ) (hashFn : String → String)
    (pd : Option RegulatedPatternDetector) (prd : Option PresidioDetector)
    (new_text full_text : String) (region : Option String)
    (st : AnalyzerState)
    (h : ¬ st.frequency ≤ st.total_tokens_processed + tc new_text
        - st.last_analysis_position) :
    process_new_tokens tc enc dec policy risk_threshold
        confidence_threshold hashFn pd prd new_text full_text region st
      = (none, { st with total_tokens_processed :=
          st.total_tokens_processed + tc new_text }) := by
  simp [process_new_tokens, should_analyze, h]

lemma pnt_trigger (tc : String → Nat) (enc : String → List Nat)
    (dec : List Nat → String) (policy : CompliancePolicy)
    (risk_threshold confidence_threshold : ℚ) (hashFn : String → String)
    (pd : Option RegulatedPatternDetector) (prd : Option PresidioDetector)
    (new_text full_text : String) (region : Option String)
    (st : AnalyzerState)
    (h : st.frequency ≤ st.total_tokens_processed + tc new_text
        - st.last_analysis_position) :
    ((process_new_tokens tc enc dec policy risk_threshold
        confidence_threshold hashFn pd prd new_text full_text region
        st).1).map (fun a => a.analysis_position)
      = some (st.total_tokens_processed + tc new_text) ∧
    (process_new_tokens tc enc dec policy risk_threshold
        confidence_threshold hashFn pd prd new_text full_text region
        st).2.frequency = st.frequency ∧
    (process_new_tokens tc enc dec policy risk_threshold
        confidence_threshold hashFn pd prd new_text full_text region
        st).2.last_analysis_position
      = st.total_tokens_processed + tc new_text ∧
    (process_new_tokens tc enc dec policy risk_threshold
        confidence_threshold hashFn pd prd new_text full_text region
        st).2.total_tokens_processed
      = st.total_tokens_processed + tc new_text := by
  refine ⟨?_, ?_, ?_, ?_⟩ <;>
    simp [process_new_tokens, should_analyze, h, analyze_window]

lemma feed_chain_ge (tc : String → Nat) (enc : String → List Nat)
    (dec : List Nat → String) (policy : CompliancePolicy)
    (risk_threshold confidence_threshold : ℚ) (hashFn : String → String)
    (pd : Option RegulatedPatternDetector) (prd : Option PresidioDetector)
    (region : Option String) :
    ∀ (pieces : List (String × String)) (st : AnalyzerState),
      st.last_analysis_position ≤ st.total_tokens_processed →
      List.Chain' (fun p q => p + st.frequency ≤ q)
        (st.last_analysis_position ::
          feedPositions tc enc dec policy risk_threshold
            confidence_threshold hashFn pd prd region pieces st) := by
  intro pieces
  induction pieces with
  | nil =>
    intro st _
    simp [feedPositions, feedTokens]
  | cons nf rest ih =>
    intro st hinv
    obtain ⟨n, f⟩ := nf
    by_cases htrig : st.frequency ≤
        st.total_tokens_processed + tc n - st.last_analysis_position
    · obtain ⟨hpos, hfreq, hlast, htot⟩ := pnt_trigger tc enc dec policy
        risk_threshold confidence_threshold hashFn pd prd n f region st
        htrig
      obtain ⟨a, ha1, ha2⟩ := Option.map_eq_some'.mp hpos
      have hfp : feedPositions tc enc dec policy risk_threshold
            confidence_threshold hashFn pd prd region ((n, f) :: rest) st
          = a.analysis_position ::
            feedPositions tc enc dec policy risk_threshold
              confidence_threshold hashFn pd prd region rest
              ((process_new_tokens tc enc dec policy risk_threshold
                confidence_threshold hashFn pd prd n f region st).2) := by
        simp [feedPositions, feedTokens, ha1]
      rw [hfp, ha2, List.chain'_cons]
      constructor
      · omega
      · have hrec := ih ((process_new_tokens tc enc dec policy
            risk_threshold confidence_threshold hashFn pd prd n f region
            st).2) (by rw [hlast, htot])
        rw [hfreq, hlast] at hrec
        exact hrec
    · have hstep := pnt_not_trigger tc enc dec policy risk_threshold
        confidence_threshold hashFn pd prd n f region st htrig
      have hfp : feedPositions tc enc dec policy risk_threshold
            confidence_threshold hashFn pd prd region ((n, f) :: rest) st
          = feedPositions tc enc dec policy risk_threshold
              confidence_threshold hashFn pd prd region rest
              { st with total_tokens_processed :=
                  st.total_tokens_processed + tc n } := by
        simp [feedPositions, feedTokens, hstep]
      rw [hfp]
      have hrec := ih { st with total_tokens_processed :=
          st.total_tokens_processed + tc n } (by simp; omega)
      simpa using hrec

lemma feed_chain_exact (tc : String → Nat) (enc : String → List Nat)
    (dec : List Nat → String) (policy : CompliancePolicy)
    (risk_threshold confidence_threshold : ℚ) (hashFn : String → String)
    (pd : Option RegulatedPatternDetector) (prd : Option PresidioDetector)
    (region : Option String) :
    ∀ (pieces : List (String × String)) (st : AnalyzerState),
      (∀ p ∈ pieces, tc p.1 = 1) →
      st.last_analysis_position ≤ st.total_tokens_processed →
      st.total_tokens_processed - st.last_analysis_position
        < st.frequency →
      List.Chain' (fun p q => q = p + st.frequency)
        (feedPositions tc enc dec policy risk_threshold
          confidence_threshold hashFn pd prd region pieces st) ∧
      (∀ h0, (feedPositions tc enc dec policy risk_threshold
          confidence_threshold hashFn pd prd region pieces st).head?
            = some h0 →
        h0 = st.last_analysis_position + st.frequency) := by
  intro pieces
  induction pieces with
  | nil =>
    intro st _ _ _
    constructor
    · simp [feedPositions, feedTokens]
    · intro h0 hh
      simp [feedPositions, feedTokens] at hh
  | cons nf rest ih =>
    intro st hu hinv hgap
    obtain ⟨n, f⟩ := nf
    have hn : tc n = 1 := hu (n, f) (List.mem_cons_self _ _)
    by_cases htrig : st.frequency ≤
        st.total_tokens_processed + tc n - st.last_analysis_position
    · obtain ⟨hpos, hfreq, hlast, htot⟩ := pnt_trigger tc enc dec policy
        risk_threshold confidence_threshold hashFn pd prd n f region st
        htrig
      obtain ⟨a, ha1, ha2⟩ := Option.map_eq_some'.mp hpos
      have hfp : feedPositions tc enc dec policy risk_threshold
            confidence_threshold hashFn pd prd region ((n, f) :: rest) st
          = a.analysis_position ::
            feedPositions tc enc dec policy risk_threshold
              confidence_threshold hashFn pd prd region rest
              ((process_new_tokens tc enc dec policy risk_threshold
                confidence_threshold hashFn pd prd n f region st).2) := by
        simp [feedPositions, feedTokens, ha1]
      have ht1 : st.total_tokens_processed + tc n
          = st.last_analysis_position + st.frequency := by omega
      have hrec := ih ((process_new_tokens tc enc dec policy risk_threshold
          confidence_threshold hashFn pd prd n f region st).2)
        (fun p hp => hu p (List.mem_cons_of_mem _ hp))
        (by rw [hlast, htot]) (by rw [hlast, htot]; rw [hfreq]; omega)
      constructor
      · rw [hfp, ha2, List.chain'_cons']
        constructor
        · intro y hy
          have hy' := hrec.2 y hy
          rw [hy', hlast, hfreq]
        · have := hrec.1
          rw [hfreq] at this
          exact this
      · intro h0 hh
        rw [hfp, ha2] at hh
        simp only [List.head?_cons, Option.some.injEq] at hh
        omega
    · have hstep := pnt_not_trigger tc enc dec policy risk_threshold
        confidence_threshold hashFn pd prd n f region st htrig
      have hfp : feedPositions tc enc dec policy risk_threshold
            confidence_threshold hashFn pd prd region ((n, f) :: rest) st
          = feedPositions tc enc dec policy risk_threshold
              confidence_threshold hashFn pd prd region rest
              { st with total_tokens_processed :=
                  st.total_tokens_processed + tc n } := by
        simp [feedPositions, feedTokens, hstep]
      have hrec := ih { st with total_tokens_processed :=
          st.total_tokens_processed + tc n }
        (fun p hp => hu p (List.mem_cons_of_mem _ hp))
        (by simp; omega) (by simp; omega)
      constructor
      · rw [hfp]
        simpa using hrec.1
      · intro h0 hh
        rw [hfp] at hh
        have := hrec.2 h0 hh
        simpa using this

set_option maxRecDepth 8000 in
set_option maxHeartbeats 1000000 in
/-- C5 counterexample: two 30-token pieces (fallback tokenizer, 120
characters each) fed from the initial state trigger analyses at positions
30 and 60 — consecutive analysis positions differ by 30, not by the
configured frequency F = 25, refuting the exactly-F claim for arbitrary
piece sequences. -/
theorem C5_counterexample :
    feedPositions fallback_token_count encTrivial decTrivial
        COMPLIANCE_POLICY (7/10) (3/5) (fun _ => "") none none none
        [(pieceA120, pieceA120), (pieceA120, pieceA120)] AnalyzerState.init
      = [30, 60] ∧
    AnalyzerState.init.frequency = 25 ∧
    ¬ (60 : Nat) = 30 + AnalyzerState.init.frequency := by
  refine ⟨?_, by decide, by decide⟩
  decide

/-- C5 (amended): `process_new_tokens` runs an evaluation exactly when
`(totalProcessed - lastEvaluatedPosition) ≥ F`; consecutive analysis
positions always differ by at least F, and they differ by exactly F when
every fed piece contributes exactly one token (a multi-token piece can
stretch the gap beyond F). -/
theorem C5_analysis_cadence :
    (∀ (tc : String → Nat) (enc : String → List Nat)
        (dec : List Nat → String) (policy : CompliancePolicy)
        (risk_threshold confidence_threshold : ℚ)
        (hashFn : String → String)
        (pd : Option RegulatedPatternDetector)
        (prd : Option PresidioDetector) (new_text full_text : String)
        (region : Option String) (st : AnalyzerState),
      ((process_new_tokens tc enc dec policy risk_threshold
          confidence_threshold hashFn pd prd new_text full_text region
          st).1.isSome = true
        ↔ st.frequency ≤ st.total_tokens_processed + tc new_text
            - st.last_analysis_position)) ∧
    (∀ (tc : String → Nat) (enc : String → List Nat)
        (dec : List Nat → String) (policy : CompliancePolicy)
        (risk_threshold confidence_threshold : ℚ)
        (hashFn : String → String)
        (pd : Option RegulatedPatternDetector)
        (prd : Option PresidioDetector) (region : Option String)
        (pieces : List (String × String)) (st : AnalyzerState),
      st.last_analysis_position ≤ st.total_tokens_processed →
      List.Chain' (fun p q => p + st.frequency ≤ q)
        (feedPositions tc enc dec policy risk_threshold
          confidence_threshold hashFn pd prd region pieces st)) ∧
    (∀ (tc : String → Nat) (enc : String → List Nat)
        (dec : List Nat → String) (policy : CompliancePolicy)
        (risk_threshold confidence_threshold : ℚ)
        (hashFn : String → String)
        (pd : Option RegulatedPatternDetector)
        (prd : Option PresidioDetector) (region : Option String)
        (pieces : List (String × String)) (st : AnalyzerState),
      (∀ p ∈ pieces, tc p.1 = 1) →
      st.last_analysis_position ≤ st.total_tokens_processed →
      st.total_tokens_processed - st.last_analysis_position
        < st.frequency →
      List.Chain' (fun p q => q = p + st.frequency)
        (feedPositions tc enc dec policy risk_threshold
          confidence_threshold hashFn pd prd region pieces st)) := by
  refine ⟨?_, ?_, ?_⟩
  · intro tc enc dec policy rth cth hashFn pd prd new_text full_text
      region st
    by_cases h : st.frequency ≤ st.total_tokens_processed + tc new_text
        - st.last_analysis_position
    · simp [process_new_tokens, should_analyze, h]
    · simp [process_new_tokens, should_analyze, h]
  · intro tc enc dec policy rth cth hashFn pd prd region pieces st hinv
    exact (List.chain'_cons'.mp
      (feed_chain_ge tc enc dec policy rth cth hashFn pd prd region pieces
        st hinv)).2
  · intro tc enc dec policy rth cth hashFn pd prd region pieces st hu hinv
      hgap
    exact (feed_chain_exact tc enc dec policy rth cth hashFn pd prd region
      pieces st hu hinv hgap).1

set_option maxRecDepth 8000 in
set_option maxHeartbeats 2000000 in
/-- C5 witness: from the initial state, 25 single-token pieces trigger
one analysis whose position 25 = 0 + F, and the cadence properties hold
at that concrete run. -/
theorem C5_analysis_cadence_witness :
    ((process_new_tokens fallback_token_count encTrivial decTrivial
        COMPLIANCE_POLICY (7/10) (3/5) (fun _ => "") none none "aaaa"
        "aaaa" none AnalyzerState.init).1.isSome = true
      ↔ AnalyzerState.init.frequency
          ≤ AnalyzerState.init.total_tokens_processed
            + fallback_token_count "aaaa"
            - AnalyzerState.init.last_analysis_position) ∧
    List.Chain' (fun p q => p + AnalyzerState.init.frequency ≤ q)
      (feedPositions fallback_token_count encTrivial decTrivial
        COMPLIANCE_POLICY (7/10) (3/5) (fun _ => "") none none none
        unitPieces AnalyzerState.init) ∧
    List.Chain' (fun p q => q = p + AnalyzerState.init.frequency)
      (feedPositions fallback_token_count encTrivial decTrivial
        COMPLIANCE_POLICY (7/10) (3/5) (fun _ => "") none none none
        unitPieces AnalyzerState.init) ∧
    feedPositions fallback_token_count encTrivial decTrivial
        COMPLIANCE_POLICY (7/10) (3/5) (fun _ => "") none none none
        unitPieces AnalyzerState.init = [25] := by
  refine ⟨C5_analysis_cadence.1 fallback_token_count encTrivial decTrivial
      COMPLIANCE_POLICY (7/10) (3/5) (fun _ => "") none none "aaaa" "aaaa"
      none AnalyzerState.init,
    C5_analysis_cadence.2.1 fallback_token_count encTrivial decTrivial
      COMPLIANCE_POLICY (7/10) (3/5) (fun _ => "") none none none
      unitPieces AnalyzerState.init (by decide),
    C5_analysis_cadence.2.2 fallback_token_count encTrivial decTrivial
      COMPLIANCE_POLICY (7/10) (3/5) (fun _ => "") none none none
      unitPieces AnalyzerState.init (by decide) (by decide) (by decide),
    ?_⟩
  decide

/-- Every frame produced by `emit_event` carries the id the session
counter assigned it, and the ids count up from `event_id + 1`. -/
lemma emitAll_frames :
    ∀ (events : List (String × String)) (event_id : Nat),
      (emitAll event_id events).1
        = (events.zip (List.range' (event_id + 1) events.length)).map
            (fun pe => (sse_event pe.1.1 (some pe.1.2)
              (some (Nat.repr pe.2)), pe.2)) := by
  intro events
  induction events with
  | nil => intro event_id; simp [emitAll]
  | cons de rest ih =>
    intro event_id
    obtain ⟨d, ev⟩ := de
    simp only [emitAll, emit_event, List.length_cons, List.range'_succ,
      List.zip_cons_cons, List.map_cons]
    rw [ih (event_id + 1)]

/-- C8 counterexample: the heartbeat frame
(`sse_event("[heartbeat]", event="heartbeat")`) is written to the client
queue with no `id:` line at all, and the backend chat endpoint's event
payload dict has no `id` key either — so not every client-stream event
carries a monotonically increasing id. -/
theorem C8_counterexample :
    sseParts "[heartbeat]" (some "heartbeat") none
      = ["event: heartbeat", "data: [heartbeat]", ""] ∧
    heartbeatFrame = "event: heartbeat\ndata: [heartbeat]\n\n" ∧
    (∀ part ∈ sseParts "[heartbeat]" (some "heartbeat") none,
      ("id: ".data).isPrefixOf part.data = false) ∧
    "id" ∉ chatEventDataKeys := by
  refine ⟨by decide, by decide, by decide, by decide⟩

/-- C8 (amended): every event framed through `emit_event` of `app.py`
(chunk, window report, blocked, completed, error) carries an `id:` line
holding its session-counter id, and those ids increase strictly
monotonically over the session; heartbeat frames are the exception — they
are framed without an id. -/
theorem C8_event_ids :
    (∀ (event_id : Nat) (events : List (String × String)),
      (emitAll event_id events).1
        = (events.zip (List.range' (event_id + 1) events.length)).map
            (fun pe => (sse_event pe.1.1 (some pe.1.2)
              (some (Nat.repr pe.2)), pe.2))) ∧
    (∀ (event_id : Nat) (events : List (String × String)),
      List.Chain' (· < ·)
        (((emitAll event_id events).1).map (fun fr => fr.2))) ∧
    (∀ (data : String) (event : Option String) (i : String),
      ("id: " ++ i) ∈ sseParts data event (some i)) := by
  refine ⟨fun event_id events => emitAll_frames events event_id, ?_, ?_⟩
  · intro event_id events
    rw [emitAll_frames events event_id]
    have hlen : (List.range' (event_id + 1) events.length).length
        = events.length := List.length_range' _ _ _
    rw [List.map_map]
    have hmap : ((fun fr => fr.2) ∘
          (fun pe : (String × String) × Nat =>
            (sse_event pe.1.1 (some pe.1.2) (some (Nat.repr pe.2)), pe.2)))
        = fun pe : (String × String) × Nat => pe.2 := rfl
    rw [hmap]
    have hsnd : (events.zip
          (List.range' (event_id + 1) events.length)).map Prod.snd
        = List.range' (event_id + 1) events.length :=
      List.map_snd_zip _ _ (le_of_eq hlen)
    rw [show (fun pe : (String × String) × Nat => pe.2) = Prod.snd from rfl,
      hsnd]
    exact chain'_lt_range' _ _
  · intro data event i
    simp [sseParts]

end BlockingResponses
